import Mathlib

/-!
Shallow embedding of `python/sglang/srt/disaggregation/mini_lb.py`
(a minimal HTTP load balancer for prefill/decode inference servers),
together with proofs about the behaviour of its core operations:
round-robin pair selection, bootstrap-metadata injection, dual dispatch,
admin fan-out broadcasting and the guarded admin state flags.

Conventions of the embedding:
* JSON values are modelled by the inductive type `JVal`; a parsed JSON
  object (a Python `dict` produced by the JSON parser, hence with unique
  string keys and insertion order) is a `List (String × JVal)`.
* Python exceptions are modelled by `Option`/sum results: a function that
  can raise returns `none` on the raising path.
* Randomness (`random.choice`, `random.randint`) is modelled by explicit
  oracle arguments; network responses are modelled by explicit response
  arguments or status oracles.
* Machine integers do not occur: Python integers are unbounded, so `Nat`
  and `Int` are used directly.
-/

namespace MiniLB

/-- A JSON value as produced by the JSON parser.  `f` is a floating-point
JSON number, carrying its literal text; the program under study never
inspects a float beyond `isinstance(_, int)` (false) and truthiness, so no
float arithmetic is modelled.  `null` is Python `None`. -/
inductive JVal where
  | s (v : String)
  | n (v : Int)
  | b (v : Bool)
  | f (lit : String)
  | arr (vs : List JVal)
  | obj (kvs : List (String × JVal))
  | null

/-- A parsed JSON object / Python dict: unique string keys, insertion order. -/
abbrev JDict := List (String × JVal)

/-- Python `d[k]` / `d.get(k)` on a dict: the value stored at key `k`,
`none` when the key is absent. -/
def dGet : JDict → String → Option JVal
  | [], _ => none
  | (k', v) :: rest, k => if k' = k then some v else dGet rest k

/-- Setting one key of a Python dict: overwrite in place when the key is
present (keeping its position), append otherwise. -/
def dictSet : JDict → String → JVal → JDict
  | [], k, v => [(k, v)]
  | (k', v') :: rest, k, v =>
      if k' = k then (k, v) :: rest else (k', v') :: dictSet rest k v

/-- Python `dict.update` with a literal dict argument: set each key-value
pair in order. -/
def dictUpdate (d : JDict) (kvs : List (String × JVal)) : JDict :=
  kvs.foldl (fun a kv => dictSet a kv.1 kv.2) d

/-- Top-level keys of a dict. -/
def dKeys (d : JDict) : List String := d.map Prod.fst

/-- The pattern `(x := request.get(k)) is not None`: Python `.get` returns
`None` both when the key is absent and when the stored value is JSON null,
so both cases give `none` here. -/
def pyGetNonNull (d : JDict) (k : String) : Option JVal :=
  match dGet d k with
  | some JVal.null => none
  | some v => some v
  | none => none

/-- Python `isinstance(x, int)` on a JSON value: true for integers and for
booleans (`bool` is a subclass of `int` in Python). -/
def isinstance_int : JVal → Bool
  | JVal.n _ => true
  | JVal.b _ => true
  | _ => false

/-- Python `len(x)` on a JSON value; `none` models the `TypeError` raised
on values without a length (numbers, booleans, floats, `None`). -/
def pyLen : JVal → Option Nat
  | JVal.s v => some v.length
  | JVal.arr vs => some vs.length
  | JVal.obj kvs => some kvs.length
  | _ => none

/-- Python `x[0]` on a JSON value; `none` models the exception raised when
subscripting fails: `IndexError` on an empty list or string, `TypeError`
on numbers/booleans/`None`, `KeyError` on a JSON object (whose keys are
strings, never the integer `0`). -/
def pyIndex0 : JVal → Option JVal
  | JVal.arr (x :: _) => some x
  | JVal.s v =>
      match v.data with
      | [] => none
      | c :: _ => some (JVal.s (String.mk [c]))
  | _ => none

/-- A scalar JSON value in the spec's vocabulary: not a sequence/mapping. -/
def isScalar : JVal → Bool
  | JVal.s _ => true
  | JVal.n _ => true
  | JVal.b _ => true
  | JVal.f _ => true
  | JVal.null => true
  | _ => false

/-- `PrefillConfig` from the source: a prefill server URL together with its
bootstrap port. -/
structure PrefillConfig where
  url : String
  bootstrap_port : Nat
  deriving DecidableEq, Repr

/-- The mutable state of `MiniLoadBalancer`: the registry (immutable after
construction), the two admin flags and the round-robin cursor. -/
structure MiniLoadBalancer where
  prefill_configs : List PrefillConfig
  decode_servers : List String
  profiling : Bool
  recording : Bool
  round_robin_counter : Nat
  deriving DecidableEq, Repr

/-- `prefill_servers` as computed in `__init__`: the URLs of the prefill
configs. -/
def MiniLoadBalancer.prefill_servers (lb : MiniLoadBalancer) : List String :=
  lb.prefill_configs.map PrefillConfig.url

/-- `MiniLoadBalancer.select_pair`.  The prefill endpoint is taken at the
round-robin cursor (list indexing raises `IndexError` when out of range,
modelled by `none`) and the cursor then advances by one modulo the pool
size; the decode endpoint is `random.choice(self.decode_servers)`,
modelled by an oracle `r` reduced modulo the pool size (`random.choice`
raises on an empty list, modelled by `none`). -/
def select_pair (lb : MiniLoadBalancer) (r : Nat) :
    Option ((String × Nat × String) × MiniLoadBalancer) :=
  match lb.prefill_configs.get? lb.round_robin_counter,
        lb.decode_servers.get? (r % lb.decode_servers.length) with
  | some pc, some ds =>
      some ((pc.url, pc.bootstrap_port, ds),
        { lb with round_robin_counter :=
            (lb.round_robin_counter + 1) % lb.prefill_configs.length })
  | _, _ => none

/-- N sequential calls to `select_pair`, one oracle value per call;
returns the list of selected triples and the final state. -/
def select_pairs (lb : MiniLoadBalancer) :
    List Nat → Option (List (String × Nat × String) × MiniLoadBalancer)
  | [] => some ([], lb)
  | r :: rs =>
      match select_pair lb r with
      | none => none
      | some (p, lb1) =>
          match select_pairs lb1 rs with
          | none => none
          | some (ps, lb2) => some (p :: ps, lb2)

/-- The structured `{"success": ..., "message": ...}` dict returned by
every admin method. -/
structure BroadcastResult where
  success : Bool
  message : String
  deriving DecidableEq, Repr

/-- An observable side effect of an admin method, in program order: an
assignment to one of the two admin flags, or an HTTP POST issued to a
backend. -/
inductive AdminEvent where
  | set_profiling (v : Bool)
  | set_recording (v : Bool)
  | post (url : String)
  deriving DecidableEq, Repr, Inhabited

/-- `chain(self.prefill_servers, self.decode_servers)`. -/
def MiniLoadBalancer.all_servers (lb : MiniLoadBalancer) : List String :=
  lb.prefill_servers ++ lb.decode_servers

/-- `MiniLoadBalancer.start_profile`.  `st` is the status oracle: the HTTP
status each backend returns for a given URL.  Returns the structured
result, the new balancer state, and the trace of side effects in program
order (the flag assignment on line 55 of the source precedes the POSTs
issued on lines 59/61). -/
def start_profile (lb : MiniLoadBalancer) (st : String → Nat) :
    BroadcastResult × MiniLoadBalancer × List AdminEvent :=
  if lb.profiling then
    ({ success := false, message := "Profiling is already in progress" }, lb, [])
  else
    let urls := lb.all_servers.map (fun s => s ++ "/start_profile")
    let success := (urls.map st).all (fun r => r == 200)
    ({ success := success,
       message := if success then "Profiling started" else "Failed to start profiling" },
     { lb with profiling := true },
     AdminEvent.set_profiling true :: urls.map AdminEvent.post)

/-- `MiniLoadBalancer.stop_profile`. -/
def stop_profile (lb : MiniLoadBalancer) (st : String → Nat) :
    BroadcastResult × MiniLoadBalancer × List AdminEvent :=
  if !lb.profiling then
    ({ success := false, message := "Profiling is not in progress" }, lb, [])
  else
    let urls := lb.all_servers.map (fun s => s ++ "/stop_profile")
    let success := (urls.map st).all (fun r => r == 200)
    ({ success := success,
       message := if success then "Profiling stopped" else "Failed to stop profiling" },
     { lb with profiling := false },
     AdminEvent.set_profiling false :: urls.map AdminEvent.post)

/-- `MiniLoadBalancer.start_expert_distribution_record` (the "Recoding"
spelling is the source's own). -/
def start_expert_distribution_record (lb : MiniLoadBalancer) (st : String → Nat) :
    BroadcastResult × MiniLoadBalancer × List AdminEvent :=
  if lb.recording then
    ({ success := false, message := "Recoding is already in progress" }, lb, [])
  else
    let urls := lb.all_servers.map (fun s => s ++ "/start_expert_distribution_record")
    let success := (urls.map st).all (fun r => r == 200)
    ({ success := success,
       message := if success then "Recording expert distribution started"
                  else "Failed to start recording expert distribution" },
     { lb with recording := true },
     AdminEvent.set_recording true :: urls.map AdminEvent.post)

/-- `MiniLoadBalancer.stop_expert_distribution_record`. -/
def stop_expert_distribution_record (lb : MiniLoadBalancer) (st : String → Nat) :
    BroadcastResult × MiniLoadBalancer × List AdminEvent :=
  if !lb.recording then
    ({ success := false, message := "Recoding is not in progress" }, lb, [])
  else
    let urls := lb.all_servers.map (fun s => s ++ "/stop_expert_distribution_record")
    let success := (urls.map st).all (fun r => r == 200)
    ({ success := success,
       message := if success then "Recording expert distribution stopped"
                  else "Failed to stop recording expert distribution" },
     { lb with recording := false },
     AdminEvent.set_recording false :: urls.map AdminEvent.post)

/-- `MiniLoadBalancer.dump_expert_distribution_record` (an unconditional
broadcast: no guard, no flag). -/
def dump_expert_distribution_record (lb : MiniLoadBalancer) (st : String → Nat) :
    BroadcastResult × MiniLoadBalancer × List AdminEvent :=
  let urls := lb.all_servers.map (fun s => s ++ "/dump_expert_distribution_record")
  let success := (urls.map st).all (fun r => r == 200)
  ({ success := success,
     message := if success then "Dumping expert distribution succeed"
                else "Failed to dumping expert distribution" },
   lb, urls.map AdminEvent.post)

/-- One completed backend HTTP response: the status and the parsed JSON
body (`await response.json()`). -/
structure BackendResponse where
  status : Nat
  body : JVal

/-- `MiniLoadBalancer.generate` (the non-streaming dual dispatch), seen at
the point where `asyncio.gather` has resolved: each leg's argument is
`some` of its completed response or `none` when the leg did not complete
(a raised transport fault propagates out of `gather`, modelled by `none`).
When both legs complete, the returned `ORJSONResponse` carries exactly the
decode leg's parsed body and status; the prefill response is bound but
never read. -/
def generate (prefill_response decode_response : Option BackendResponse) :
    Option (Nat × JVal) :=
  match prefill_response, decode_response with
  | some _, some d => some (d.status, d.body)
  | _, _ => none

/-- `_generate_bootstrap_room`: `random.randint(0, 2**63 - 1)`, the
randomness modelled by an oracle value reduced into the inclusive range. -/
def _generate_bootstrap_room (r : Nat) : Nat := r % 2 ^ 63

/-- `_get_request_batch_size`.  The outer `Option` models an uncaught
exception escaping the function (`none` = raised); the inner `Option Nat`
is the returned batch size, `none` being Python `None`. -/
def _get_request_batch_size (request : JDict) : Option (Option Nat) :=
  match pyGetNonNull request ("text") with
  | some t =>
      match t with
      | JVal.s _ => some none
      | _ => (pyLen t).map some
  | none =>
      match pyGetNonNull request ("input_ids") with
      | some input_ids =>
          match pyIndex0 input_ids with
          | none => none
          | some x =>
              if isinstance_int x then some none else (pyLen input_ids).map some
      | none => some none

/-- The characters following the first occurrence of `://`, or `none`
when there is no such occurrence. -/
def afterSchemeChars : List Char → Option (List Char)
  | ':' :: '/' :: '/' :: rest => some rest
  | _ :: rest => afterSchemeChars rest
  | [] => none

/-- The suffix after the last `@`, or the whole list when there is no
`@` (drops the userinfo part of a netloc). -/
def afterLastAt (cs : List Char) : List Char :=
  (cs.reverse.takeWhile (fun c => c != '@')).reverse

/-- Hostname extraction of `urllib.parse.urlparse(url).hostname`, modelled
for the URL shapes this program receives (`scheme://[user@]host[:port][/path…]`):
the netloc is the text between `://` and the first `/`, `?` or `#`; user
info before a `@` is dropped, a `:port` suffix is dropped, and the result
is lowercased.  `none` models Python `None` (no netloc / empty host). -/
def url_hostname (url : String) : Option String :=
  match afterSchemeChars url.data with
  | none => none
  | some rest =>
      let netloc := rest.takeWhile (fun c => c != '/' && c != '?' && c != '#')
      let hostinfo := afterLastAt netloc
      let host := (hostinfo.takeWhile (fun c => c != ':')).map Char.toLower
      if host.isEmpty then none else some (String.mk host)

/-- The JSON value injected as `bootstrap_host`: the extracted hostname,
or JSON null when `urlparse` yields no hostname. -/
def hostJVal (hostname : Option String) : JVal :=
  match hostname with
  | some h => JVal.s h
  | none => JVal.null

/-- The bootstrap-injection step of `handle_generate_request` (source
lines 282-302): shallow-copy the request, compute the batch size, and
merge the three bootstrap fields — scalars for a `None` batch size,
length-`N` sequences for batch size `N` (`rooms` is the oracle feeding the
successive `_generate_bootstrap_room` calls).  `none` models the uncaught
exception propagating out of `_get_request_batch_size`.  This step
performs no network I/O. -/
def inject_bootstrap (request_data : JDict) (hostname : Option String)
    (bootstrap_port : Nat) (rooms : Nat → Nat) : Option JDict :=
  match _get_request_batch_size request_data with
  | none => none
  | some (some batch_size) =>
      some (dictUpdate request_data
        [("bootstrap_host", JVal.arr (List.replicate batch_size (hostJVal hostname))),
         ("bootstrap_port", JVal.arr (List.replicate batch_size (JVal.n bootstrap_port))),
         ("bootstrap_room", JVal.arr ((List.range batch_size).map
            (fun k => JVal.n (_generate_bootstrap_room (rooms k)))))])
  | some none =>
      some (dictUpdate request_data
        [("bootstrap_host", hostJVal hostname),
         ("bootstrap_port", JVal.n bootstrap_port),
         ("bootstrap_room", JVal.n (_generate_bootstrap_room (rooms 0)))])

/-- What the `/generate` route handler has produced by the time it hands
off to the dual dispatcher: the augmented request body to forward, the
balancer state after `select_pair`, and the selected pair. -/
structure GenResult where
  modified : JDict
  lb : MiniLoadBalancer
  prefill_url : String
  decode_url : String

/-- `handle_generate_request` up to (and excluding) the dispatch call:
select a pair, extract the hostname from the prefill URL, shallow-copy the
request and inject the batching-aware bootstrap fields.  `none` models an
uncaught exception (out-of-range cursor, empty decode pool, or a batch
shape on which `_get_request_batch_size` raises). -/
def handle_generate_request (lb : MiniLoadBalancer) (request_data : JDict)
    (decodeR : Nat) (rooms : Nat → Nat) : Option GenResult :=
  match select_pair lb decodeR with
  | none => none
  | some ((prefill_url, bootstrap_port, decode_url), lb1) =>
      match inject_bootstrap request_data (url_hostname prefill_url) bootstrap_port rooms with
      | none => none
      | some modified => some ⟨modified, lb1, prefill_url, decode_url⟩

/-- `handle_completion_request` up to (and excluding) the dispatch call:
select a pair, extract the hostname, and inject the three scalar bootstrap
fields; `bootstrap_room` is the caller-supplied `req_id` when present
(used verbatim), else a fresh random 63-bit integer. -/
def handle_completion_request (lb : MiniLoadBalancer) (request_data : JDict)
    (decodeR : Nat) (room_r : Nat) : Option GenResult :=
  match select_pair lb decodeR with
  | none => none
  | some ((prefill_url, bootstrap_port, decode_url), lb1) =>
      let bootstrap_room : JVal :=
        match pyGetNonNull request_data ("req_id") with
        | some v => v
        | none => JVal.n (_generate_bootstrap_room room_r)
      some ⟨dictUpdate request_data
              [("bootstrap_host", hostJVal (url_hostname prefill_url)),
               ("bootstrap_port", JVal.n bootstrap_port),
               ("bootstrap_room", bootstrap_room)],
            lb1, prefill_url, decode_url⟩

/-- The outcome of the `try` block of the `/v1/models` handler: either the
OK response, or a raised exception.  `http_exn s` is the
`HTTPException(status_code=s)` raised on line 369 for a non-200 backend
status; `transport_exn` is a fault raised by the HTTP client itself.
Both are subclasses of `Exception`. -/
inductive ModelsTryOutcome where
  | ok (status : Nat) (body : JVal)
  | http_exn (status : Nat)
  | transport_exn

/-- The `try` block of `get_models` (`/v1/models`): query the first
prefill backend; raise `HTTPException(response.status)` when the status is
not 200, else return the body with status 200.  `backend = none` models a
transport fault. -/
def get_models_try (backend : Option (Nat × JVal)) : ModelsTryOutcome :=
  match backend with
  | none => ModelsTryOutcome.transport_exn
  | some (status, body) =>
      if status ≠ 200 then ModelsTryOutcome.http_exn status
      else ModelsTryOutcome.ok status body

/-- The whole `get_models` handler: the `except Exception` clause catches
every exception raised in the `try` block — including the
`HTTPException` that carries the backend's status — and re-raises
`HTTPException(status_code=500)`.  Result: the client-visible status and,
on success, the proxied JSON body. -/
def get_models (backend : Option (Nat × JVal)) : Nat × Option JVal :=
  match get_models_try backend with
  | ModelsTryOutcome.ok status body => (status, some body)
  | ModelsTryOutcome.http_exn _ => (500, none)
  | ModelsTryOutcome.transport_exn => (500, none)

/-- The HTTP framework boundary around a route handler: FastAPI/Starlette
returns HTTP 500 (`ServerErrorMiddleware`) for an uncaught exception
escaping the handler; `none` models such an uncaught exception, `some`
a normal return (whose status is produced later by the dispatcher). -/
def status_of_uncaught {α : Type} (result : Option α) : Option Nat :=
  match result with
  | none => some 500
  | some _ => none

/-- A request body of well-formed batch shape, per the spec's own
classification (single text, batched text, single/batched ids with a
nonempty id list, or neither field present). -/
def well_formed (request : JDict) : Bool :=
  match pyGetNonNull request ("text") with
  | some (JVal.s _) => true
  | some (JVal.arr _) => true
  | some _ => false
  | none =>
      match pyGetNonNull request ("input_ids") with
      | some (JVal.arr (_ :: _)) => true
      | some _ => false
      | none => true

/-! ### Concrete instances used to witness the theorems below -/

/-- A concrete balancer: two prefill endpoints, one decode endpoint,
both admin flags off, cursor at 0. -/
def lbTwo : MiniLoadBalancer :=
  { prefill_configs := [⟨"http://p0:30000", 8998⟩, ⟨"http://p1:30000", 8999⟩]
  , decode_servers := ["http://d0:31000"]
  , profiling := false
  , recording := false
  , round_robin_counter := 0 }

/-- The same balancer with both admin flags on. -/
def lbTwoActive : MiniLoadBalancer :=
  { lbTwo with profiling := true, recording := true }

/-- A status oracle under which the decode backend answers 503 and every
other backend answers 200. -/
def stOneBad : String → Nat :=
  fun u => if u = "http://d0:31000/dump_expert_distribution_record" then 503 else 200

/-- Is an event an assignment to one of the admin flags? -/
def isFlagSet : AdminEvent → Bool
  | AdminEvent.set_profiling _ => true
  | AdminEvent.set_recording _ => true
  | AdminEvent.post _ => false

/-- Is an event a network POST? -/
def isPost : AdminEvent → Bool
  | AdminEvent.post _ => true
  | _ => false

/-- The ordering asserted by the spec for guarded admin commands: in the
event trace, every flag assignment occurs strictly after every network
POST (the flag is "updated only after the broadcast completes"). -/
def flag_set_after_all_posts (evs : List AdminEvent) : Prop :=
  ∀ i, i < evs.length → ∀ j, j < evs.length →
    isFlagSet (evs.getD i default) = true → isPost (evs.getD j default) = true → j < i

/-- The concrete value of `handle_generate_request lbTwo
[("text", "hi")] 0 (fun _ => 5)`: prefill p0 is selected, the cursor
advances to 1, and the three scalar bootstrap fields are injected. -/
def genResW : GenResult :=
  { modified := [("text", JVal.s ("hi")), ("bootstrap_host", JVal.s ("p0")),
                 ("bootstrap_port", JVal.n 8998), ("bootstrap_room", JVal.n 5)]
  , lb := { lbTwo with round_robin_counter := 1 }
  , prefill_url := "http://p0:30000"
  , decode_url := "http://d0:31000" }

/-! ### Dictionary lemmas -/

theorem dGet_dictSet_self (d : JDict) (k : String) (v : JVal) :
    dGet (dictSet d k v) k = some v := by
  induction d with
  | nil => simp [dictSet, dGet]
  | cons kv rest ih =>
      obtain ⟨k', v'⟩ := kv
      by_cases h : k' = k
      · simp [dictSet, h, dGet]
      · simp [dictSet, h, dGet, ih]

theorem dGet_dictSet_ne (d : JDict) (k k1 : String) (v : JVal) (h : k1 ≠ k) :
    dGet (dictSet d k v) k1 = dGet d k1 := by
  induction d with
  | nil => simp [dictSet, dGet, Ne.symm h]
  | cons kv rest ih =>
      obtain ⟨k', v'⟩ := kv
      by_cases hk : k' = k
      · subst hk
        simp [dictSet, dGet, Ne.symm h]
      · simp [dictSet, hk, dGet, ih]

theorem dGet_isSome_iff (d : JDict) (k : String) :
    (dGet d k).isSome = true ↔ k ∈ dKeys d := by
  induction d with
  | nil => simp [dGet, dKeys]
  | cons kv rest ih =>
      obtain ⟨k', v'⟩ := kv
      by_cases h : k' = k
      · subst h; simp [dGet, dKeys]
      · rw [show dGet ((k', v') :: rest) k = dGet rest k from by simp [dGet, h], ih]
        simp [dKeys, Ne.symm h]

/-! ### Pair-selection lemmas -/

theorem select_pair_eq (lb : MiniLoadBalancer) (r : Nat)
    (hc : lb.round_robin_counter < lb.prefill_configs.length)
    (hd : lb.decode_servers ≠ []) :
    ∃ pc ds,
      lb.prefill_configs.get? lb.round_robin_counter = some pc ∧
      lb.decode_servers.get? (r % lb.decode_servers.length) = some ds ∧
      select_pair lb r = some ((pc.url, pc.bootstrap_port, ds),
        { lb with round_robin_counter :=
            (lb.round_robin_counter + 1) % lb.prefill_configs.length }) := by
  have h1 := List.get?_eq_get hc
  have hdl : 0 < lb.decode_servers.length := List.length_pos.mpr hd
  have h2 := List.get?_eq_get (Nat.mod_lt r hdl)
  exact ⟨_, _, h1, h2, by rw [select_pair, h1, h2]⟩

theorem select_pairs_spec : ∀ (rs : List Nat) (lb : MiniLoadBalancer),
    lb.round_robin_counter < lb.prefill_configs.length →
    lb.decode_servers ≠ [] →
    ∃ out fin,
      select_pairs lb rs = some (out, fin) ∧
      out.length = rs.length ∧
      fin.prefill_configs = lb.prefill_configs ∧
      fin.decode_servers = lb.decode_servers ∧
      fin.round_robin_counter =
        (lb.round_robin_counter + rs.length) % lb.prefill_configs.length ∧
      ∀ k, k < rs.length →
        ∃ r pc ds, rs.get? k = some r ∧
          lb.prefill_configs.get?
            ((lb.round_robin_counter + k) % lb.prefill_configs.length) = some pc ∧
          lb.decode_servers.get? (r % lb.decode_servers.length) = some ds ∧
          out.get? k = some (pc.url, pc.bootstrap_port, ds)
  | [], lb, hc, hd => by
      refine ⟨[], lb, rfl, rfl, rfl, rfl, by simpa using (Nat.mod_eq_of_lt hc).symm, ?_⟩
      intro k hk
      exact absurd hk (by simp)
  | r :: rs, lb, hc, hd => by
      obtain ⟨pc, ds, h1, h2, h3⟩ := select_pair_eq lb r hc hd
      have hP : 0 < lb.prefill_configs.length := Nat.lt_of_le_of_lt (Nat.zero_le _) hc
      have hc1 : (lb.round_robin_counter + 1) % lb.prefill_configs.length <
          lb.prefill_configs.length := Nat.mod_lt _ hP
      obtain ⟨out, fin, ih1, ih2, ih3, ih4, ih5, ih6⟩ :=
        select_pairs_spec rs
          { lb with round_robin_counter :=
              (lb.round_robin_counter + 1) % lb.prefill_configs.length } hc1 hd
      refine ⟨(pc.url, pc.bootstrap_port, ds) :: out, fin, ?_, by simp [ih2],
        ih3, ih4, ?_, ?_⟩
      · simp only [select_pairs, h3, ih1]
      · rw [ih5]
        dsimp only
        rw [Nat.mod_add_mod, List.length_cons]
        congr 1
        omega
      · intro k hk
        match k with
        | 0 =>
            refine ⟨r, pc, ds, rfl, ?_, h2, rfl⟩
            simpa [Nat.mod_eq_of_lt hc] using h1
        | k + 1 =>
            obtain ⟨r1, pc1, ds1, j1, j2, j3, j4⟩ := ih6 k (by simpa using hk)
            refine ⟨r1, pc1, ds1, j1, ?_, j3, j4⟩
            have j2' : lb.prefill_configs.get?
                (((lb.round_robin_counter + 1) % lb.prefill_configs.length + k) %
                  lb.prefill_configs.length) = some pc1 := j2
            rw [Nat.mod_add_mod] at j2'
            have harg : lb.round_robin_counter + 1 + k = lb.round_robin_counter + (k + 1) := by
              omega
            rwa [harg] at j2'

/-! ### Round-robin counting arithmetic -/

theorem countP_mod_formula (P c0 i : Nat) (hP : 0 < P) (hc : c0 < P) (hi : i < P) :
    ∀ N, ((List.range N).countP (fun k => (c0 + k) % P == i)) =
      N / P + (if (i + P - c0) % P < N % P then 1 else 0) := by
  have hD : (i + P - c0) % P < P := Nat.mod_lt _ hP
  have hDval : (i + P - c0) % P = if c0 ≤ i then i - c0 else i + P - c0 := by
    by_cases hci : c0 ≤ i
    · rw [if_pos hci, show i + P - c0 = (i - c0) + P by omega, Nat.add_mod_right]
      exact Nat.mod_eq_of_lt (by omega)
    · rw [if_neg hci]
      exact Nat.mod_eq_of_lt (by omega)
  have hcm : ∀ m, m < P →
      (c0 + m) % P = if c0 + m < P then c0 + m else c0 + m - P := by
    intro m hm
    by_cases h : c0 + m < P
    · rw [if_pos h]
      exact Nat.mod_eq_of_lt h
    · rw [if_neg h, Nat.mod_eq_sub_mod (by omega)]
      exact Nat.mod_eq_of_lt (by omega)
  have hkey : ∀ m, m < P → ((c0 + m) % P = i ↔ m = (i + P - c0) % P) := by
    intro m hm
    rw [hcm m hm, hDval]
    split_ifs <;> omega
  intro N
  induction N with
  | zero => simp
  | succ n ih =>
      rw [List.range_succ, List.countP_append, ih]
      have hr : n % P < P := Nat.mod_lt n hP
      have hsingle : (([n] : List Nat).countP (fun k => (c0 + k) % P == i)) =
          if n % P = (i + P - c0) % P then 1 else 0 := by
        have hcond : ((c0 + n) % P = i) ↔ (n % P = (i + P - c0) % P) := by
          have h1 : (c0 + n) % P = (c0 + n % P) % P := by
            conv_lhs => rw [Nat.add_mod, Nat.mod_eq_of_lt hc]
          rw [h1]
          exact hkey (n % P) hr
        simp only [List.countP_cons, List.countP_nil, beq_iff_eq, Nat.zero_add]
        exact if_congr hcond rfl rfl
      rw [hsingle]
      have hsm : (n + 1) % P = if n % P + 1 = P then 0 else n % P + 1 := by
        by_cases h : n % P + 1 = P
        · rw [if_pos h, show n + 1 = P * (n / P + 1) by
            rw [Nat.mul_succ]
            have := Nat.div_add_mod n P
            omega, Nat.mul_mod_right]
        · rw [if_neg h, show n + 1 = P * (n / P) + (n % P + 1) by
            have := Nat.div_add_mod n P
            omega, Nat.mul_add_mod]
          exact Nat.mod_eq_of_lt (by omega)
      have hsd : (n + 1) / P = if n % P + 1 = P then n / P + 1 else n / P := by
        by_cases h : n % P + 1 = P
        · rw [if_pos h, show n + 1 = P * (n / P + 1) by
            rw [Nat.mul_succ]
            have := Nat.div_add_mod n P
            omega, Nat.mul_div_cancel_left _ hP]
        · rw [if_neg h, show n + 1 = P * (n / P) + (n % P + 1) by
            have := Nat.div_add_mod n P
            omega, Nat.mul_add_div hP, Nat.div_eq_of_lt (by omega : n % P + 1 < P)]
          omega
      rw [hsm, hsd]
      split_ifs <;> omega

theorem ceil_div_of_not_dvd (P N : Nat) (hP : 0 < P) (h : N % P ≠ 0) :
    (N + P - 1) / P = N / P + 1 := by
  obtain ⟨q, r, hr1, hrP, hN⟩ : ∃ q r, 1 ≤ r ∧ r < P ∧ N = P * q + r :=
    ⟨N / P, N % P, Nat.one_le_iff_ne_zero.mpr h, Nat.mod_lt N hP, by
      have := Nat.div_add_mod N P
      omega⟩
  subst hN
  rw [show P * q + r + P - 1 = P * q + ((r - 1) + P) by omega,
    Nat.mul_add_div hP, Nat.add_div_right _ hP,
    Nat.div_eq_of_lt (show r - 1 < P by omega),
    Nat.mul_add_div hP, Nat.div_eq_of_lt hrP]

theorem countP_cycle (P c0 i : Nat) (hP : 0 < P) (hc : c0 < P) (hi : i < P) (N : Nat) :
    (List.range N).countP (fun k => (c0 + k) % P == i) = N / P ∨
    (List.range N).countP (fun k => (c0 + k) % P == i) = (N + P - 1) / P := by
  rw [countP_mod_formula P c0 i hP hc hi N]
  by_cases h : (i + P - c0) % P < N % P
  · right
    rw [if_pos h, ceil_div_of_not_dvd P N hP (by omega)]
  · left
    rw [if_neg h]
    omega

/-! ### Claim theorems -/

/-- Claim C1: round-robin fairness of prefill selection.  For any prefill
pool and any sequence of `select_pair` calls (one oracle value per call)
started from a reachable cursor, every call succeeds; the k-th call
selects the prefill endpoint at index `(c0 + k) mod P` (cyclic order from
the starting cursor) together with a decode endpoint; each index `i < P`
is selected `⌊N/P⌋` or `⌈N/P⌉` times (with `⌈N/P⌉ = (N + P - 1) / P`);
every single call advances the cursor to `(previous + 1) mod P`; and the
final cursor is `(c0 + N) mod P`. -/
theorem round_robin_fairness (lb : MiniLoadBalancer) (rs : List Nat)
    (hc : lb.round_robin_counter < lb.prefill_configs.length)
    (hd : lb.decode_servers ≠ [])
    (hN : 1 ≤ rs.length) :
    ∃ out fin, select_pairs lb rs = some (out, fin) ∧
      out.length = rs.length ∧
      (∀ k, k < rs.length →
        ∃ r pc ds, rs.get? k = some r ∧
          lb.prefill_configs.get?
            ((lb.round_robin_counter + k) % lb.prefill_configs.length) = some pc ∧
          lb.decode_servers.get? (r % lb.decode_servers.length) = some ds ∧
          out.get? k = some (pc.url, pc.bootstrap_port, ds)) ∧
      (∀ i, i < lb.prefill_configs.length →
        (List.range rs.length).countP
            (fun k => (lb.round_robin_counter + k) % lb.prefill_configs.length == i) =
          rs.length / lb.prefill_configs.length ∨
        (List.range rs.length).countP
            (fun k => (lb.round_robin_counter + k) % lb.prefill_configs.length == i) =
          (rs.length + lb.prefill_configs.length - 1) / lb.prefill_configs.length) ∧
      (∀ (st : MiniLoadBalancer) (r : Nat) p st1, select_pair st r = some (p, st1) →
        st1.round_robin_counter =
          (st.round_robin_counter + 1) % st.prefill_configs.length) ∧
      fin.round_robin_counter =
        (lb.round_robin_counter + rs.length) % lb.prefill_configs.length := by
  obtain ⟨out, fin, h1, h2, h3, h4, h5, h6⟩ := select_pairs_spec rs lb hc hd
  have hP : 0 < lb.prefill_configs.length := Nat.lt_of_le_of_lt (Nat.zero_le _) hc
  refine ⟨out, fin, h1, h2, h6, ?_, ?_, h5⟩
  · intro i hi
    exact countP_cycle _ _ i hP hc hi rs.length
  · intro st r p st1 hsp
    cases hg1 : st.prefill_configs.get? st.round_robin_counter with
    | none => rw [select_pair, hg1] at hsp; cases hsp
    | some pc =>
        cases hg2 : st.decode_servers.get? (r % st.decode_servers.length) with
        | none => rw [select_pair, hg1, hg2] at hsp; cases hsp
        | some ds =>
            rw [select_pair, hg1, hg2] at hsp
            simp only [Option.some.injEq, Prod.mk.injEq] at hsp
            rw [← hsp.2]

/-- Witness for C1 at a concrete input: two prefill endpoints, one decode
endpoint, cursor 0, three calls. -/
theorem round_robin_fairness_witness :
    lbTwo.round_robin_counter < lbTwo.prefill_configs.length ∧
    lbTwo.decode_servers ≠ [] ∧
    1 ≤ ([0, 0, 0] : List Nat).length ∧
    (∃ out fin, select_pairs lbTwo [0, 0, 0] = some (out, fin) ∧
      out.length = ([0, 0, 0] : List Nat).length ∧
      (∀ k, k < ([0, 0, 0] : List Nat).length →
        ∃ r pc ds, ([0, 0, 0] : List Nat).get? k = some r ∧
          lbTwo.prefill_configs.get?
            ((lbTwo.round_robin_counter + k) % lbTwo.prefill_configs.length) = some pc ∧
          lbTwo.decode_servers.get? (r % lbTwo.decode_servers.length) = some ds ∧
          out.get? k = some (pc.url, pc.bootstrap_port, ds)) ∧
      (∀ i, i < lbTwo.prefill_configs.length →
        (List.range ([0, 0, 0] : List Nat).length).countP
            (fun k => (lbTwo.round_robin_counter + k) % lbTwo.prefill_configs.length == i) =
          ([0, 0, 0] : List Nat).length / lbTwo.prefill_configs.length ∨
        (List.range ([0, 0, 0] : List Nat).length).countP
            (fun k => (lbTwo.round_robin_counter + k) % lbTwo.prefill_configs.length == i) =
          (([0, 0, 0] : List Nat).length + lbTwo.prefill_configs.length - 1) /
            lbTwo.prefill_configs.length) ∧
      (∀ (st : MiniLoadBalancer) (r : Nat) p st1, select_pair st r = some (p, st1) →
        st1.round_robin_counter =
          (st.round_robin_counter + 1) % st.prefill_configs.length) ∧
      fin.round_robin_counter =
        (lbTwo.round_robin_counter + ([0, 0, 0] : List Nat).length) %
          lbTwo.prefill_configs.length) :=
  ⟨by decide, by decide, by decide,
    round_robin_fairness lbTwo [0, 0, 0] (by decide) (by decide) (by decide)⟩

/-- Claim C2: non-streaming dual dispatch.  When both legs complete, the
client-visible response is exactly the decode leg's status and parsed JSON
body; the prefill leg's response never influences the result; and the
result is only produced once the prefill leg has completed. -/
theorem non_streaming_dual_dispatch :
    (∀ p d : BackendResponse, generate (some p) (some d) = some (d.status, d.body)) ∧
    (∀ (p p' : BackendResponse) (dr : Option BackendResponse),
      generate (some p) dr = generate (some p') dr) ∧
    (∀ dr : Option BackendResponse, generate none dr = none) := by
  refine ⟨fun p d => rfl, ?_, fun dr => rfl⟩
  intro p p' dr
  cases dr <;> rfl

/-- Helper: the aggregate `all(response.status == 200 ...)` over mapped
URLs is true exactly when every server's status is 200. -/
theorem all_statuses_200_iff (l : List String) (f : String → Nat) :
    (((l.map f).all (fun r => r == 200)) = true) ↔ ∀ s ∈ l, f s = 200 := by
  simp [List.all_eq_true]

/-- Claim C5: broadcast aggregation.  For the admin broadcasts, the
aggregate success flag is true iff every backend in the combined
prefill-then-decode pool answers 200; the message is one of two fixed
strings selected solely by that boolean.  The two cited endpoints
(`dump_expert_distribution_record`, unconditional, and `start_profile`,
past its guard) are covered, together with the spec's concrete example:
statuses `[200, 200, 503]` give `success = false` and all-200 gives
`success = true`. -/
theorem broadcast_aggregation (lb : MiniLoadBalancer) (st : String → Nat) :
    ((dump_expert_distribution_record lb st).1.success = true ↔
      ∀ s ∈ lb.all_servers, st (s ++ "/dump_expert_distribution_record") = 200) ∧
    ((dump_expert_distribution_record lb st).1.message =
      if (dump_expert_distribution_record lb st).1.success = true
      then "Dumping expert distribution succeed"
      else "Failed to dumping expert distribution") ∧
    (lb.profiling = false →
      (((start_profile lb st).1.success = true ↔
        ∀ s ∈ lb.all_servers, st (s ++ "/start_profile") = 200) ∧
       ((start_profile lb st).1.message =
        if (start_profile lb st).1.success = true then "Profiling started"
        else "Failed to start profiling"))) ∧
    ((lbTwo.all_servers.map (fun s => stOneBad (s ++ "/dump_expert_distribution_record"))) =
      [200, 200, 503] ∧
     (dump_expert_distribution_record lbTwo stOneBad).1.success = false) ∧
    (dump_expert_distribution_record lbTwo (fun _ => 200)).1.success = true := by
  refine ⟨?_, rfl, ?_, ⟨by decide, by decide⟩, by decide⟩
  · rw [show (dump_expert_distribution_record lb st).1.success =
        (((lb.all_servers.map (fun s => s ++ "/dump_expert_distribution_record")).map st).all
          (fun r => r == 200)) from rfl]
    rw [List.map_map, all_statuses_200_iff]
    exact Iff.rfl
  · intro hp
    have hstart : start_profile lb st =
        ({ success := ((lb.all_servers.map (fun s => s ++ "/start_profile")).map st).all
              (fun r => r == 200),
           message := if ((lb.all_servers.map (fun s => s ++ "/start_profile")).map st).all
              (fun r => r == 200) then "Profiling started" else "Failed to start profiling" },
         { lb with profiling := true },
         AdminEvent.set_profiling true ::
           (lb.all_servers.map (fun s => s ++ "/start_profile")).map AdminEvent.post) := by
      rw [start_profile, hp]
      rfl
    constructor
    · rw [hstart]
      show (((lb.all_servers.map (fun s => s ++ "/start_profile")).map st).all
          (fun r => r == 200)) = true ↔ _
      rw [List.map_map, all_statuses_200_iff]
      exact Iff.rfl
    · rw [hstart]

/-- Witness for C5's guarded clause at a concrete input (profiling off,
one backend answering 503). -/
theorem broadcast_aggregation_witness :
    lbTwo.profiling = false ∧
    (((start_profile lbTwo stOneBad).1.success = true ↔
      ∀ s ∈ lbTwo.all_servers, stOneBad (s ++ "/start_profile") = 200) ∧
     ((start_profile lbTwo stOneBad).1.message =
      if (start_profile lbTwo stOneBad).1.success = true then "Profiling started"
      else "Failed to start profiling")) :=
  ⟨rfl, (broadcast_aggregation lbTwo stOneBad).2.2.1 rfl⟩

/-- Claim C6: admin guard short-circuit.  Starting while the flag is
already active (or stopping while inactive) returns `success = false`
with a descriptive message, issues no network calls and no flag
assignment (empty event trace), leaves the whole state unchanged, and is
a normal structured return, not an exception. -/
theorem admin_guard_short_circuit (lb : MiniLoadBalancer) (st : String → Nat) :
    (lb.profiling = true →
      start_profile lb st =
        ({ success := false, message := "Profiling is already in progress" }, lb, [])) ∧
    (lb.profiling = false →
      stop_profile lb st =
        ({ success := false, message := "Profiling is not in progress" }, lb, [])) ∧
    (lb.recording = true →
      start_expert_distribution_record lb st =
        ({ success := false, message := "Recoding is already in progress" }, lb, [])) ∧
    (lb.recording = false →
      stop_expert_distribution_record lb st =
        ({ success := false, message := "Recoding is not in progress" }, lb, [])) := by
  refine ⟨?_, ?_, ?_, ?_⟩ <;> intro h <;>
    simp [start_profile, stop_profile, start_expert_distribution_record,
      stop_expert_distribution_record, h]

/-- Witness for C6 at concrete inputs: both flags on for the start calls,
both flags off for the stop calls. -/
theorem admin_guard_short_circuit_witness :
    start_profile lbTwoActive stOneBad =
      ({ success := false, message := "Profiling is already in progress" },
        lbTwoActive, []) ∧
    stop_profile lbTwo stOneBad =
      ({ success := false, message := "Profiling is not in progress" }, lbTwo, []) ∧
    start_expert_distribution_record lbTwoActive stOneBad =
      ({ success := false, message := "Recoding is already in progress" },
        lbTwoActive, []) ∧
    stop_expert_distribution_record lbTwo stOneBad =
      ({ success := false, message := "Recoding is not in progress" }, lbTwo, []) :=
  ⟨(admin_guard_short_circuit lbTwoActive stOneBad).1 rfl,
   (admin_guard_short_circuit lbTwo stOneBad).2.1 rfl,
   (admin_guard_short_circuit lbTwoActive stOneBad).2.2.1 rfl,
   (admin_guard_short_circuit lbTwo stOneBad).2.2.2 rfl⟩

/-- Counterexample to claim C7 as stated: on a non-short-circuited
`start_profile`, the flag assignment is the very first event of the
trace, strictly before every network POST, so the flag is not "updated
only after the broadcast completes". -/
theorem admin_flag_order_counterexample :
    (start_profile lbTwo (fun _ => 200)).2.2 =
      [AdminEvent.set_profiling true,
       AdminEvent.post ("http://p0:30000/start_profile"),
       AdminEvent.post ("http://p1:30000/start_profile"),
       AdminEvent.post ("http://d0:31000/start_profile")] ∧
    ¬ flag_set_after_all_posts (start_profile lbTwo (fun _ => 200)).2.2 := by
  constructor
  · rfl
  · intro h
    have := h 0 (by decide) 1 (by decide) (by decide) (by decide)
    omega

/-- Claim C7 (amended): on every non-short-circuited start/stop of a
guarded admin operation, the flag is updated immediately after the guard
check and before the broadcast is issued (the flag assignment is the
first event, followed by the POSTs), and the flag flips to its target
value regardless of the broadcast statuses (the post-state is independent
of the status oracle). -/
theorem admin_flag_update_ordering (lb : MiniLoadBalancer) (st st' : String → Nat) :
    (lb.profiling = false →
      (start_profile lb st).2.2 = AdminEvent.set_profiling true ::
        (lb.all_servers.map (fun s => s ++ "/start_profile")).map AdminEvent.post ∧
      (start_profile lb st).2.1.profiling = true ∧
      (start_profile lb st).2.1 = (start_profile lb st').2.1) ∧
    (lb.profiling = true →
      (stop_profile lb st).2.2 = AdminEvent.set_profiling false ::
        (lb.all_servers.map (fun s => s ++ "/stop_profile")).map AdminEvent.post ∧
      (stop_profile lb st).2.1.profiling = false ∧
      (stop_profile lb st).2.1 = (stop_profile lb st').2.1) ∧
    (lb.recording = false →
      (start_expert_distribution_record lb st).2.2 = AdminEvent.set_recording true ::
        (lb.all_servers.map (fun s => s ++ "/start_expert_distribution_record")).map
          AdminEvent.post ∧
      (start_expert_distribution_record lb st).2.1.recording = true ∧
      (start_expert_distribution_record lb st).2.1 =
        (start_expert_distribution_record lb st').2.1) ∧
    (lb.recording = true →
      (stop_expert_distribution_record lb st).2.2 = AdminEvent.set_recording false ::
        (lb.all_servers.map (fun s => s ++ "/stop_expert_distribution_record")).map
          AdminEvent.post ∧
      (stop_expert_distribution_record lb st).2.1.recording = false ∧
      (stop_expert_distribution_record lb st).2.1 =
        (stop_expert_distribution_record lb st').2.1) := by
  refine ⟨?_, ?_, ?_, ?_⟩ <;> intro h <;>
    simp [start_profile, stop_profile, start_expert_distribution_record,
      stop_expert_distribution_record, h]

/-- Witness for C7's amended statement at concrete inputs. -/
theorem admin_flag_update_ordering_witness :
    ((start_profile lbTwo stOneBad).2.2 = AdminEvent.set_profiling true ::
        (lbTwo.all_servers.map (fun s => s ++ "/start_profile")).map AdminEvent.post ∧
      (start_profile lbTwo stOneBad).2.1.profiling = true ∧
      (start_profile lbTwo stOneBad).2.1 = (start_profile lbTwo (fun _ => 200)).2.1) ∧
    ((stop_profile lbTwoActive stOneBad).2.2 = AdminEvent.set_profiling false ::
        (lbTwoActive.all_servers.map (fun s => s ++ "/stop_profile")).map AdminEvent.post ∧
      (stop_profile lbTwoActive stOneBad).2.1.profiling = false ∧
      (stop_profile lbTwoActive stOneBad).2.1 =
        (stop_profile lbTwoActive (fun _ => 200)).2.1) :=
  ⟨(admin_flag_update_ordering lbTwo stOneBad (fun _ => 200)).1 rfl,
   (admin_flag_update_ordering lbTwoActive stOneBad (fun _ => 200)).2.1 rfl⟩

/-- Claim C8, code-bug evidence for the `/v1/models` proxy: the handler's
`try` block does raise `HTTPException` carrying the backend's own status
(here 503), showing the intent to surface it verbatim — but the blanket
`except Exception` clause catches that very exception and re-raises
`HTTPException(500)`, so the client sees 500, never the backend status.
The 200 path and the transport-fault path behave as specified. -/
theorem v1_models_status_conversion :
    get_models_try (some (503, JVal.null)) = ModelsTryOutcome.http_exn 503 ∧
    get_models (some (503, JVal.null)) = (500, none) ∧
    (∀ body : JVal, get_models (some (200, body)) = (200, some body)) ∧
    get_models none = (500, none) :=
  ⟨rfl, rfl, fun _ => rfl, rfl⟩

/-- Claim C3 (amended): batch-size detection.  `null` for a string `text`;
the sequence length for a list `text`; otherwise, with `input_ids`
present, `null` exactly when its first element is an integer (booleans
included, `bool` being a Python `int`), else the sequence length;
`null` when neither field is present.  The spec's five concrete examples
are included. -/
theorem batch_size_detection (request : JDict) :
    (∀ v, pyGetNonNull request ("text") = some (JVal.s v) →
      _get_request_batch_size request = some none) ∧
    (∀ vs, pyGetNonNull request ("text") = some (JVal.arr vs) →
      _get_request_batch_size request = some (some vs.length)) ∧
    (pyGetNonNull request ("text") = none →
      ∀ x xs, pyGetNonNull request ("input_ids") = some (JVal.arr (x :: xs)) →
        _get_request_batch_size request =
          (if isinstance_int x then some none else some (some (xs.length + 1)))) ∧
    (pyGetNonNull request ("text") = none →
      pyGetNonNull request ("input_ids") = none →
      _get_request_batch_size request = some none) ∧
    _get_request_batch_size [(("text" : String), JVal.s ("hello"))] = some none ∧
    _get_request_batch_size
      [(("text" : String), JVal.arr [JVal.s ("a"), JVal.s ("b"), JVal.s ("c")])] =
      some (some 3) ∧
    _get_request_batch_size
      [(("input_ids" : String), JVal.arr [JVal.n 1, JVal.n 2, JVal.n 3])] = some none ∧
    _get_request_batch_size
      [(("input_ids" : String),
        JVal.arr [JVal.arr [JVal.n 1, JVal.n 2], JVal.arr [JVal.n 3, JVal.n 4]])] =
      some (some 2) ∧
    _get_request_batch_size ([] : JDict) = some none := by
  refine ⟨?_, ?_, ?_, ?_, rfl, rfl, rfl, rfl, rfl⟩
  · intro v h
    simp [_get_request_batch_size, h]
  · intro vs h
    simp [_get_request_batch_size, h, pyLen]
  · intro ht x xs h
    cases hx : isinstance_int x <;>
      simp [_get_request_batch_size, ht, h, pyIndex0, hx, pyLen]
  · intro ht hi
    simp [_get_request_batch_size, ht, hi]

/-- Witness for C3 at a concrete input: a two-element `text` list. -/
theorem batch_size_detection_witness :
    pyGetNonNull [(("text" : String), JVal.arr [JVal.s ("a"), JVal.s ("b")])] ("text") =
      some (JVal.arr [JVal.s ("a"), JVal.s ("b")]) ∧
    _get_request_batch_size [(("text" : String), JVal.arr [JVal.s ("a"), JVal.s ("b")])] =
      some (some ([JVal.s ("a"), JVal.s ("b")] : List JVal).length) :=
  ⟨rfl, (batch_size_detection _).2.1 [JVal.s ("a"), JVal.s ("b")] rfl⟩

/-- Counterexample to claim C3 as stated: in
`{"input_ids": [1.5, 2.5]}` the first element is a scalar (a float), so
the claim demands batch size `null`; the code's test is
`isinstance(input_ids[0], int)`, which is false for a float, so the code
returns `len(input_ids) = 2`. -/
theorem batch_size_scalar_counterexample :
    isScalar (JVal.f ("1.5")) = true ∧
    pyGetNonNull [(("input_ids" : String), JVal.arr [JVal.f ("1.5"), JVal.f ("2.5")])]
      ("text") = none ∧
    pyIndex0 (JVal.arr [JVal.f ("1.5"), JVal.f ("2.5")]) = some (JVal.f ("1.5")) ∧
    _get_request_batch_size
      [(("input_ids" : String), JVal.arr [JVal.f ("1.5"), JVal.f ("2.5")])] =
      some (some 2) ∧
    _get_request_batch_size
      [(("input_ids" : String), JVal.arr [JVal.f ("1.5"), JVal.f ("2.5")])] ≠
      some none := by
  refine ⟨rfl, rfl, rfl, rfl, ?_⟩
  intro h
  have h2 : (some (some 2) : Option (Option Nat)) = some none := h
  injection h2 with h3
  exact Option.noConfusion h3

/-- Claim C9 (amended): bootstrap injection is a pure step (no network
I/O is modelled because none occurs); it cannot fail on a well-formed
batch shape; on a body whose `input_ids` field is present but an empty
sequence it raises (an uncaught `IndexError`), which the HTTP framework
surfaces to the caller as status 500 — a server error, not a
4xx-equivalent. -/
theorem malformed_batch_shape (request : JDict) (hostname : Option String)
    (port : Nat) (rooms : Nat → Nat) :
    (well_formed request = true →
      (inject_bootstrap request hostname port rooms).isSome = true) ∧
    (pyGetNonNull request ("text") = none →
      pyGetNonNull request ("input_ids") = some (JVal.arr []) →
      inject_bootstrap request hostname port rooms = none ∧
      status_of_uncaught (inject_bootstrap request hostname port rooms) = some 500) := by
  constructor
  · intro hw
    cases ht : pyGetNonNull request ("text") with
    | some t =>
        cases t with
        | s v => simp [inject_bootstrap, _get_request_batch_size, ht]
        | arr vs => simp [inject_bootstrap, _get_request_batch_size, ht, pyLen]
        | n v => simp [well_formed, ht] at hw
        | b v => simp [well_formed, ht] at hw
        | f v => simp [well_formed, ht] at hw
        | obj kvs => simp [well_formed, ht] at hw
        | null => simp [well_formed, ht] at hw
    | none =>
        cases hi : pyGetNonNull request ("input_ids") with
        | none => simp [inject_bootstrap, _get_request_batch_size, ht, hi]
        | some ids =>
            cases ids with
            | arr vs =>
                cases vs with
                | nil => simp [well_formed, ht, hi] at hw
                | cons x xs =>
                    cases hx : isinstance_int x <;>
                      simp [inject_bootstrap, _get_request_batch_size, ht, hi,
                        pyIndex0, hx, pyLen]
            | s v => simp [well_formed, ht, hi] at hw
            | n v => simp [well_formed, ht, hi] at hw
            | b v => simp [well_formed, ht, hi] at hw
            | f v => simp [well_formed, ht, hi] at hw
            | obj kvs => simp [well_formed, ht, hi] at hw
            | null => simp [well_formed, ht, hi] at hw
  · intro ht hi
    constructor <;>
      simp [inject_bootstrap, _get_request_batch_size, ht, hi, pyIndex0, status_of_uncaught]

/-- Witness for C9's two clauses at concrete inputs. -/
theorem malformed_batch_shape_witness :
    well_formed [(("text" : String), JVal.s ("hi"))] = true ∧
    (inject_bootstrap [(("text" : String), JVal.s ("hi"))] (some ("p0")) 8998
      (fun _ => 5)).isSome = true ∧
    (inject_bootstrap [(("input_ids" : String), JVal.arr [])] (some ("p0")) 8998
        (fun _ => 5) = none ∧
      status_of_uncaught (inject_bootstrap [(("input_ids" : String), JVal.arr [])]
        (some ("p0")) 8998 (fun _ => 5)) = some 500) :=
  ⟨rfl,
   (malformed_batch_shape [(("text" : String), JVal.s ("hi"))] (some ("p0")) 8998
     (fun _ => 5)).1 rfl,
   (malformed_batch_shape [(("input_ids" : String), JVal.arr [])] (some ("p0")) 8998
     (fun _ => 5)).2 rfl rfl⟩

/-- Counterexample to claim C9's "4xx-equivalent" clause as stated: the
empty-`input_ids` failure is surfaced as 500, and 500 is not a 4xx
status. -/
theorem malformed_batch_shape_counterexample :
    inject_bootstrap [(("input_ids" : String), JVal.arr [])] none 0 (fun _ => 0) = none ∧
    status_of_uncaught
      (inject_bootstrap [(("input_ids" : String), JVal.arr [])] none 0 (fun _ => 0)) =
      some 500 ∧
    ∀ c, status_of_uncaught
        (inject_bootstrap [(("input_ids" : String), JVal.arr [])] none 0 (fun _ => 0)) =
        some c → ¬(400 ≤ c ∧ c < 500) := by
  refine ⟨rfl, rfl, ?_⟩
  intro c hc
  have hc1 : (some 500 : Option Nat) = some c := hc
  injection hc1 with h500
  omega

/-- Helper: full characterization of a lookup in a dict updated with the
three bootstrap keys. -/
theorem dGet_update3 (d : JDict) (hv pv rv : JVal) (k : String) :
    dGet (dictUpdate d
      [("bootstrap_host", hv), ("bootstrap_port", pv), ("bootstrap_room", rv)]) k =
      if k = "bootstrap_room" then some rv
      else if k = "bootstrap_port" then some pv
      else if k = "bootstrap_host" then some hv
      else dGet d k := by
  show dGet (dictSet (dictSet (dictSet d ("bootstrap_host") hv) ("bootstrap_port") pv)
    ("bootstrap_room") rv) k = _
  by_cases h1 : k = "bootstrap_room"
  · subst h1
    rw [if_pos rfl, dGet_dictSet_self]
  · rw [if_neg h1, dGet_dictSet_ne _ _ _ _ h1]
    by_cases h2 : k = "bootstrap_port"
    · subst h2
      rw [if_pos rfl, dGet_dictSet_self]
    · rw [if_neg h2, dGet_dictSet_ne _ _ _ _ h2]
      by_cases h3 : k = "bootstrap_host"
      · subst h3
        rw [if_pos rfl, dGet_dictSet_self]
      · rw [if_neg h3, dGet_dictSet_ne _ _ _ _ h3]

/-- Helper: the frame facts of the three-key bootstrap update: the three
keys hold exactly the injected values, every other key is untouched, and
the key set grows by exactly the three keys. -/
theorem update3_frame (d : JDict) (hv pv rv : JVal) :
    (∀ k, k ≠ "bootstrap_host" → k ≠ "bootstrap_port" → k ≠ "bootstrap_room" →
      dGet (dictUpdate d
        [("bootstrap_host", hv), ("bootstrap_port", pv), ("bootstrap_room", rv)]) k =
        dGet d k) ∧
    dGet (dictUpdate d
      [("bootstrap_host", hv), ("bootstrap_port", pv), ("bootstrap_room", rv)])
      ("bootstrap_host") = some hv ∧
    dGet (dictUpdate d
      [("bootstrap_host", hv), ("bootstrap_port", pv), ("bootstrap_room", rv)])
      ("bootstrap_port") = some pv ∧
    dGet (dictUpdate d
      [("bootstrap_host", hv), ("bootstrap_port", pv), ("bootstrap_room", rv)])
      ("bootstrap_room") = some rv ∧
    (∀ k, (dGet (dictUpdate d
        [("bootstrap_host", hv), ("bootstrap_port", pv), ("bootstrap_room", rv)])
        k).isSome = true ↔
      ((dGet d k).isSome = true ∨ k = "bootstrap_host" ∨ k = "bootstrap_port" ∨
        k = "bootstrap_room")) := by
  refine ⟨?_, by simp [dGet_update3], by simp [dGet_update3], by simp [dGet_update3], ?_⟩
  · intro k h1 h2 h3
    rw [dGet_update3, if_neg h3, if_neg h2, if_neg h1]
  · intro k
    rw [dGet_update3]
    by_cases h1 : k = "bootstrap_room"
    · simp [h1]
    by_cases h2 : k = "bootstrap_port"
    · simp [h2]
    by_cases h3 : k = "bootstrap_host"
    · simp [h3]
    simp [h1, h2, h3]

/-- Helper: a bootstrap room identifier is always in `[0, 2^63 - 1]`. -/
theorem room_in_range (r : Nat) : _generate_bootstrap_room r < 2 ^ 63 :=
  Nat.mod_lt r (by positivity)

/-- Claim C4: bootstrap injection shape on the `/generate` path.  With the
prefill endpoint `pc` selected by the cursor and `host` the hostname
extracted from its URL: for a `None` batch size the three injected fields
are scalars — the hostname, the configured bootstrap port, and one fresh
room identifier below `2^63`; for batch size `N` the host and port are
that same value replicated `N` times and the rooms are `N` separately
drawn identifiers, each below `2^63`. -/
theorem bootstrap_injection_shape (lb : MiniLoadBalancer) (request : JDict)
    (decodeR : Nat) (rooms : Nat → Nat) (pc : PrefillConfig) (host : String)
    (hc : lb.round_robin_counter < lb.prefill_configs.length)
    (hd : lb.decode_servers ≠ [])
    (hpc : lb.prefill_configs.get? lb.round_robin_counter = some pc)
    (hh : url_hostname pc.url = some host) :
    ∀ bsOpt, _get_request_batch_size request = some bsOpt →
      ∃ res, handle_generate_request lb request decodeR rooms = some res ∧
        res.prefill_url = pc.url ∧
        (bsOpt = none →
          dGet res.modified ("bootstrap_host") = some (JVal.s host) ∧
          dGet res.modified ("bootstrap_port") = some (JVal.n pc.bootstrap_port) ∧
          dGet res.modified ("bootstrap_room") =
            some (JVal.n (_generate_bootstrap_room (rooms 0))) ∧
          _generate_bootstrap_room (rooms 0) < 2 ^ 63) ∧
        (∀ n, bsOpt = some n →
          dGet res.modified ("bootstrap_host") =
            some (JVal.arr (List.replicate n (JVal.s host))) ∧
          dGet res.modified ("bootstrap_port") =
            some (JVal.arr (List.replicate n (JVal.n pc.bootstrap_port))) ∧
          dGet res.modified ("bootstrap_room") =
            some (JVal.arr ((List.range n).map
              (fun k => JVal.n (_generate_bootstrap_room (rooms k))))) ∧
          ∀ k, _generate_bootstrap_room (rooms k) < 2 ^ 63) := by
  obtain ⟨pc', ds, h1, h2, h3⟩ := select_pair_eq lb decodeR hc hd
  rw [hpc] at h1
  injection h1 with h1
  subst h1
  intro bsOpt hbs
  have hj : hostJVal (url_hostname pc.url) = JVal.s host := by rw [hh, hostJVal]
  cases bsOpt with
  | none =>
      have hinj : inject_bootstrap request (url_hostname pc.url) pc.bootstrap_port rooms =
          some (dictUpdate request
            [("bootstrap_host", JVal.s host),
             ("bootstrap_port", JVal.n pc.bootstrap_port),
             ("bootstrap_room", JVal.n (_generate_bootstrap_room (rooms 0)))]) := by
        simp [inject_bootstrap, hbs, hj]
      have hhand : handle_generate_request lb request decodeR rooms =
          some ⟨dictUpdate request
            [("bootstrap_host", JVal.s host),
             ("bootstrap_port", JVal.n pc.bootstrap_port),
             ("bootstrap_room", JVal.n (_generate_bootstrap_room (rooms 0)))],
            { lb with round_robin_counter :=
                (lb.round_robin_counter + 1) % lb.prefill_configs.length },
            pc.url, ds⟩ := by
        simp only [handle_generate_request, h3, hinj]
      refine ⟨_, hhand, rfl, ?_, ?_⟩
      · intro _
        exact ⟨(update3_frame _ _ _ _).2.1, (update3_frame _ _ _ _).2.2.1,
          (update3_frame _ _ _ _).2.2.2.1, room_in_range _⟩
      · intro n hn
        exact Option.noConfusion hn
  | some n =>
      have hinj : inject_bootstrap request (url_hostname pc.url) pc.bootstrap_port rooms =
          some (dictUpdate request
            [("bootstrap_host", JVal.arr (List.replicate n (JVal.s host))),
             ("bootstrap_port", JVal.arr (List.replicate n (JVal.n pc.bootstrap_port))),
             ("bootstrap_room", JVal.arr ((List.range n).map
                (fun k => JVal.n (_generate_bootstrap_room (rooms k)))))]) := by
        simp [inject_bootstrap, hbs, hj]
      have hhand : handle_generate_request lb request decodeR rooms =
          some ⟨dictUpdate request
            [("bootstrap_host", JVal.arr (List.replicate n (JVal.s host))),
             ("bootstrap_port", JVal.arr (List.replicate n (JVal.n pc.bootstrap_port))),
             ("bootstrap_room", JVal.arr ((List.range n).map
                (fun k => JVal.n (_generate_bootstrap_room (rooms k)))))],
            { lb with round_robin_counter :=
                (lb.round_robin_counter + 1) % lb.prefill_configs.length },
            pc.url, ds⟩ := by
        simp only [handle_generate_request, h3, hinj]
      refine ⟨_, hhand, rfl, ?_, ?_⟩
      · intro hcontra
        exact Option.noConfusion hcontra
      · intro n' hn'
        injection hn' with hn'
        subst hn'
        exact ⟨(update3_frame _ _ _ _).2.1, (update3_frame _ _ _ _).2.2.1,
          (update3_frame _ _ _ _).2.2.2.1, fun k => room_in_range _⟩

/-- Witness for C4 at a concrete input: `lbTwo`, request
`{"text": "hi"}` (batch size `None`), room oracle constantly 5. -/
theorem bootstrap_injection_shape_witness :
    _get_request_batch_size [(("text" : String), JVal.s ("hi"))] = some none ∧
    url_hostname ("http://p0:30000") = some ("p0") ∧
    (∃ res, handle_generate_request lbTwo [(("text" : String), JVal.s ("hi"))] 0
        (fun _ => 5) = some res ∧
      res.prefill_url = "http://p0:30000" ∧
      ((none : Option Nat) = none →
        dGet res.modified ("bootstrap_host") = some (JVal.s ("p0")) ∧
        dGet res.modified ("bootstrap_port") = some (JVal.n 8998) ∧
        dGet res.modified ("bootstrap_room") =
          some (JVal.n (_generate_bootstrap_room 5)) ∧
        _generate_bootstrap_room 5 < 2 ^ 63) ∧
      (∀ n, (none : Option Nat) = some n →
        dGet res.modified ("bootstrap_host") =
          some (JVal.arr (List.replicate n (JVal.s ("p0")))) ∧
        dGet res.modified ("bootstrap_port") =
          some (JVal.arr (List.replicate n (JVal.n 8998))) ∧
        dGet res.modified ("bootstrap_room") =
          some (JVal.arr ((List.range n).map
            (fun k => JVal.n (_generate_bootstrap_room 5)))) ∧
        ∀ k : Nat, _generate_bootstrap_room 5 < 2 ^ 63)) :=
  ⟨rfl, rfl,
    bootstrap_injection_shape lbTwo [(("text" : String), JVal.s ("hi"))] 0 (fun _ => 5)
      ⟨"http://p0:30000", 8998⟩ "p0" (by decide) (by decide) rfl rfl none rfl⟩

/-- Claim C10: frame property of bootstrap injection.  On both the
`/generate` and `/v1/chat/completions` paths, whenever the handler
produces a forwarded body, that body is the shallow copy of the inbound
body with exactly the keys `bootstrap_host`, `bootstrap_port` and
`bootstrap_room` set (overwriting any caller-supplied values), every other
top-level key keeps its original value, and the key set is the original
one plus exactly those three keys; the inbound body itself is passed by
value and never mutated. -/
theorem bootstrap_injection_frame (lb : MiniLoadBalancer) (request : JDict)
    (decodeR : Nat) (rooms : Nat → Nat) (room_r : Nat) :
    (∀ res, handle_generate_request lb request decodeR rooms = some res →
      ∃ hv pv rv, res.modified = dictUpdate request
          [("bootstrap_host", hv), ("bootstrap_port", pv), ("bootstrap_room", rv)] ∧
        (∀ k, k ≠ "bootstrap_host" → k ≠ "bootstrap_port" → k ≠ "bootstrap_room" →
          dGet res.modified k = dGet request k) ∧
        dGet res.modified ("bootstrap_host") = some hv ∧
        dGet res.modified ("bootstrap_port") = some pv ∧
        dGet res.modified ("bootstrap_room") = some rv ∧
        (∀ k, (dGet res.modified k).isSome = true ↔
          ((dGet request k).isSome = true ∨ k = "bootstrap_host" ∨
            k = "bootstrap_port" ∨ k = "bootstrap_room"))) ∧
    (∀ res, handle_completion_request lb request decodeR room_r = some res →
      ∃ hv pv rv, res.modified = dictUpdate request
          [("bootstrap_host", hv), ("bootstrap_port", pv), ("bootstrap_room", rv)] ∧
        (∀ k, k ≠ "bootstrap_host" → k ≠ "bootstrap_port" → k ≠ "bootstrap_room" →
          dGet res.modified k = dGet request k) ∧
        dGet res.modified ("bootstrap_host") = some hv ∧
        dGet res.modified ("bootstrap_port") = some pv ∧
        dGet res.modified ("bootstrap_room") = some rv ∧
        (∀ k, (dGet res.modified k).isSome = true ↔
          ((dGet request k).isSome = true ∨ k = "bootstrap_host" ∨
            k = "bootstrap_port" ∨ k = "bootstrap_room"))) := by
  constructor
  · intro res hres
    cases hsel : select_pair lb decodeR with
    | none =>
        rw [handle_generate_request, hsel] at hres
        cases hres
    | some psel =>
        obtain ⟨⟨pu, bp, du⟩, lb1⟩ := psel
        rw [handle_generate_request, hsel] at hres
        cases hbs : _get_request_batch_size request with
        | none =>
            simp only [inject_bootstrap, hbs] at hres
            exact Option.noConfusion hres
        | some bso =>
            cases bso with
            | none =>
                simp only [inject_bootstrap, hbs] at hres
                injection hres with hres
                subst hres
                exact ⟨_, _, _, rfl, (update3_frame _ _ _ _).1,
                  (update3_frame _ _ _ _).2.1, (update3_frame _ _ _ _).2.2.1,
                  (update3_frame _ _ _ _).2.2.2.1, (update3_frame _ _ _ _).2.2.2.2⟩
            | some n =>
                simp only [inject_bootstrap, hbs] at hres
                injection hres with hres
                subst hres
                exact ⟨_, _, _, rfl, (update3_frame _ _ _ _).1,
                  (update3_frame _ _ _ _).2.1, (update3_frame _ _ _ _).2.2.1,
                  (update3_frame _ _ _ _).2.2.2.1, (update3_frame _ _ _ _).2.2.2.2⟩
  · intro res hres
    cases hsel : select_pair lb decodeR with
    | none =>
        rw [handle_completion_request, hsel] at hres
        cases hres
    | some psel =>
        obtain ⟨⟨pu, bp, du⟩, lb1⟩ := psel
        rw [handle_completion_request, hsel] at hres
        cases hreq : pyGetNonNull request ("req_id") with
        | some v =>
            simp only [hreq] at hres
            injection hres with hres
            subst hres
            exact ⟨_, _, _, rfl, (update3_frame _ _ _ _).1,
              (update3_frame _ _ _ _).2.1, (update3_frame _ _ _ _).2.2.1,
              (update3_frame _ _ _ _).2.2.2.1, (update3_frame _ _ _ _).2.2.2.2⟩
        | none =>
            simp only [hreq] at hres
            injection hres with hres
            subst hres
            exact ⟨_, _, _, rfl, (update3_frame _ _ _ _).1,
              (update3_frame _ _ _ _).2.1, (update3_frame _ _ _ _).2.2.1,
              (update3_frame _ _ _ _).2.2.2.1, (update3_frame _ _ _ _).2.2.2.2⟩

/-- Witness for C10 at a concrete input: the `/generate` handler on
`lbTwo` with request `{"text": "hi"}` produces `genResW`, whose forwarded
body is the original body plus exactly the three bootstrap keys. -/
theorem bootstrap_injection_frame_witness :
    handle_generate_request lbTwo [(("text" : String), JVal.s ("hi"))] 0 (fun _ => 5) =
      some genResW ∧
    (∃ hv pv rv, genResW.modified = dictUpdate [(("text" : String), JVal.s ("hi"))]
        [("bootstrap_host", hv), ("bootstrap_port", pv), ("bootstrap_room", rv)] ∧
      (∀ k, k ≠ "bootstrap_host" → k ≠ "bootstrap_port" → k ≠ "bootstrap_room" →
        dGet genResW.modified k = dGet [(("text" : String), JVal.s ("hi"))] k) ∧
      dGet genResW.modified ("bootstrap_host") = some hv ∧
      dGet genResW.modified ("bootstrap_port") = some pv ∧
      dGet genResW.modified ("bootstrap_room") = some rv ∧
      (∀ k, (dGet genResW.modified k).isSome = true ↔
        ((dGet [(("text" : String), JVal.s ("hi"))] k).isSome = true ∨
          k = "bootstrap_host" ∨ k = "bootstrap_port" ∨ k = "bootstrap_room"))) :=
  ⟨rfl,
   (bootstrap_injection_frame lbTwo [(("text" : String), JVal.s ("hi"))] 0
     (fun _ => 5) 5).1 genResW rfl⟩

end MiniLB
